import Mathlib

/-!
Shallow embedding of the recommendation pipeline implemented in
`app/api/recommend/route.ts` of the koly-health-diet-partner repository.

Text is modelled as Lean `String`.  The JS string operations the source
uses — `toLowerCase`, `includes`, `trim`, `charAt(0).toUpperCase()`,
`String.replace` with a plain string pattern (first occurrence only), and
`String.replace` with a `\b<term>\b` regex under flags `gi` (every
occurrence, one pass, replacements not rescanned) — are implemented on
`List Char` below.  `Math.random()` draws are modelled by an explicit
stream `σ : Nat → Nat` together with a draw counter: the JS expression
`Math.floor(Math.random() * n)` becomes `σ k % n` at counter `k`, and the
counter is threaded through the computation in source evaluation order.
-/

namespace Koly

/-- ASCII lower-casing: the fragment of JS `toLowerCase` exercised by the
source (all keywords and table entries are ASCII). -/
def jsLower (c : Char) : Char :=
  if 'A' ≤ c ∧ c ≤ 'Z' then Char.ofNat (c.toNat + 32) else c

/-- ASCII upper-casing (JS `toUpperCase` on the first character of an
allergy name). -/
def jsUpper (c : Char) : Char :=
  if 'a' ≤ c ∧ c ≤ 'z' then Char.ofNat (c.toNat - 32) else c

/-- JS `s.toLowerCase()`. -/
def lowerStr (s : String) : String := String.mk (s.data.map jsLower)

/-- JS `s.includes(pat)` on char lists: some suffix of `s` starts with
`pat`. -/
def containsList (pat : List Char) : List Char → Bool
  | [] => pat.isEmpty
  | c :: t => pat.isPrefixOf (c :: t) || containsList pat t

/-- JS `s.includes(pat)`. -/
def includesS (s pat : String) : Bool := containsList pat.data s.data

/-- The JS whitespace code points that `String.prototype.trim` strips,
restricted to those representable in the inputs we reason about. -/
def isJsSpace (c : Char) : Bool :=
  c = ' ' || c = '\t' || c = '\n' || c = '\r' ||
  c.toNat = 11 || c.toNat = 12 || c.toNat = 0xA0 ||
  c.toNat = 0xFEFF || c.toNat = 0x2028 || c.toNat = 0x2029

/-- JS `s.trim()`. -/
def trimStr (s : String) : String :=
  String.mk (((s.data.dropWhile isJsSpace).reverse.dropWhile isJsSpace).reverse)

/-- JS regex word character `\w`, i.e. `[A-Za-z0-9_]`. -/
def isWordChar (c : Char) : Bool :=
  ('a' ≤ c && c ≤ 'z') || ('A' ≤ c && c ≤ 'Z') ||
  ('0' ≤ c && c ≤ '9') || c = '_'

/-- Case-insensitive prefix test (regex flag `i`). -/
def ciPrefix (pat s : List Char) : Bool :=
  (pat.map jsLower).isPrefixOf (s.map jsLower)

/-- `\b` immediately after a match of length `n` starting at the head of
`s`: word-ness changes between the last matched character and the
following one (end of string counts as non-word). -/
def endBoundary (s : List Char) (n : Nat) : Bool :=
  let lastW := match (s.take n).getLast? with
    | some d => isWordChar d
    | none => false
  let nextW := match s.drop n with
    | d :: _ => isWordChar d
    | [] => false
  lastW != nextW

/-- A match of `\b<pat>\b` (case-insensitive) starting exactly at the head
of `s`, where `prevW` records whether the character just before `s` in the
subject string is a word character (`false` at the start of the string). -/
def wwHere (pat : List Char) (prevW : Bool) (s : List Char) : Bool :=
  match s with
  | [] => false
  | c :: _ => (prevW != isWordChar c) && ciPrefix pat s && endBoundary s pat.length

/-- `regex.test` for `new RegExp ("\x5cb" + pat + "\x5cb", "gi")`: scan
left to right for a whole-word, case-insensitive match. -/
def wwScan (pat : List Char) (prevW : Bool) : List Char → Bool
  | [] => false
  | c :: t => wwHere pat prevW (c :: t) || wwScan pat (isWordChar c) t

/-- Whether `s` has a whole-word case-insensitive occurrence of `pat`. -/
def wwContains (pat s : List Char) : Bool := wwScan pat false s

/-- One left-to-right pass of `s.replace(regex, repl)` for the `gi`
whole-word regex above: every match is replaced by the same `repl`,
replacements are not rescanned, and the `\b` context of a later match is
judged on the original matched characters.  `fuel` only serves
termination; it is instantiated with `s.length + 1`. -/
def wwReplace (pat repl : List Char) : Nat → Bool → List Char → List Char
  | 0, _, s => s
  | _ + 1, _, [] => []
  | fuel + 1, prevW, c :: t =>
    if wwHere pat prevW (c :: t) then
      let lastW := match ((c :: t).take pat.length).getLast? with
        | some d => isWordChar d
        | none => prevW
      repl ++ wwReplace pat repl fuel lastW ((c :: t).drop pat.length)
    else
      c :: wwReplace pat repl fuel (isWordChar c) t

/-- JS `s.replace(new RegExp ("\x5cb" + pat + "\x5cb", "gi"), repl)`. -/
def wwReplaceAll (pat repl s : List Char) : List Char :=
  wwReplace pat repl (s.length + 1) false s

/-- JS `s.replace(pat, repl)` with a *string* pattern: replaces only the
first (case-sensitive) occurrence. -/
def replaceOne (pat repl : List Char) : List Char → List Char
  | [] => if pat.isEmpty then repl else []
  | c :: t =>
    if pat.isPrefixOf (c :: t) then repl ++ (c :: t).drop pat.length
    else c :: replaceOne pat repl t

/-- String wrapper for `wwContains`. -/
def wwContainsS (pat s : String) : Bool := wwContains pat.data s.data

/-- String wrapper for `wwReplaceAll`. -/
def wwReplaceS (pat repl s : String) : String :=
  String.mk (wwReplaceAll pat.data repl.data s.data)

/-- String wrapper for `replaceOne`. -/
def replaceOneS (pat repl s : String) : String :=
  String.mk (replaceOne pat.data repl.data s.data)

/-! ## Static data tables

Transcribed from `generateRAGBasedMealPlan` / `generateRAGMeals`
(route.ts:200-615).  The per-condition `principles`, `therapeuticFoods`
and `avoidFoods` lists of `medicalMealDatabase` are omitted: the data
object they belong to (`medicalData`) is passed to `generateRAGMeals` but
never read by it, so no claim depends on them. -/

/-- A JS object with the four meal-slot arrays.  Used both for the
per-condition template sets of `mealTemplates` and for generated meal
plans, matching the identical object shape in the source. -/
structure MealPlan where
  breakfast : List String
  lunch : List String
  dinner : List String
  snacks : List String
  deriving DecidableEq, Repr

/-- `medicalMealDatabase[*].keywords` in source declaration order
(route.ts:202-311). -/
def medicalMealKeywords : List (String × List String) :=
  [("diabetes", ["blood sugar", "glucose", "insulin", "diabetes", "a1c", "glycemic"]),
   ("cardiovascular",
    ["blood pressure", "heart", "cholesterol", "hypertension", "cardiac", "circulation"]),
   ("inflammatory",
    ["joint pain", "arthritis", "inflammation", "swelling", "stiffness", "autoimmune"]),
   ("digestive",
    ["stomach", "digestive", "bloating", "ibs", "gut", "constipation", "diarrhea"]),
   ("energy", ["fatigue", "tired", "energy", "exhausted", "weakness", "lethargy"]),
   ("weight", ["weight", "obesity", "overweight", "bmi", "weight loss", "weight gain"])]

/-- `mealTemplates.diabetes` (route.ts:384-413). -/
def diabetesTemplates : MealPlan where
  breakfast :=
    ["Steel-cut oats (GI 42) with {protein} and {low-gi-fruit}",
     "{low-carb-protein} scramble with {non-starchy-vegetables}",
     "Greek yogurt with {fiber-rich-seeds} and {berries}",
     "{whole-grain} toast with {healthy-fat} and {protein}",
     "Smoothie with {protein-powder}, {leafy-greens}, and {low-gi-fruit}"]
  lunch :=
    ["{lean-fish} with {complex-carb} and {fiber-vegetables}",
     "{legume} soup with {whole-grain} and {vegetables}",
     "Salad with {lean-protein}, {healthy-fats}, and {low-gi-vegetables}",
     "{poultry} stir-fry with {non-starchy-vegetables} and {small-grain-portion}",
     "{plant-protein} bowl with {quinoa} and {colorful-vegetables}"]
  dinner :=
    ["Baked {white-fish} with {roasted-vegetables} and {sweet-potato-small}",
     "{lean-meat} with {steamed-vegetables} and {cauliflower-rice}",
     "{legume} curry with {brown-rice-small} and {anti-inflammatory-spices}",
     "Grilled {protein} with {fiber-rich-vegetables} and {healthy-fats}",
     "{vegetarian-protein} with {low-carb-vegetables} and {nuts-seeds}"]
  snacks :=
    ["{raw-nuts} with {low-gi-fruit}",
     "{vegetable-sticks} with {protein-dip}",
     "{hard-boiled-egg} with {cucumber}",
     "{greek-yogurt} with {cinnamon}",
     "{chia-pudding} with {berries}"]

/-- `mealTemplates.cardiovascular` (route.ts:414-443). -/
def cardiovascularTemplates : MealPlan where
  breakfast :=
    ["Oatmeal with {omega3-nuts} and {antioxidant-berries}",
     "{omega3-fish} with {whole-grain} and {potassium-fruit}",
     "Smoothie with {leafy-greens}, {heart-healthy-fats}, and {fiber}",
     "{low-sodium-protein} with {potassium-vegetables}",
     "{whole-grain-cereal} with {plant-milk} and {heart-healthy-nuts}"]
  lunch :=
    ["Grilled {fatty-fish} with {potassium-vegetables} and {whole-grains}",
     "{mediterranean-salad} with {olive-oil} and {omega3-seeds}",
     "{low-sodium-soup} with {heart-healthy-protein} and {vegetables}",
     "{lean-poultry} with {steamed-vegetables} and {quinoa}",
     "{plant-based-protein} with {heart-protective-vegetables}"]
  dinner :=
    ["Baked {omega3-fish} with {roasted-vegetables} and {sweet-potato}",
     "{lean-protein} with {potassium-rich-vegetables} and {brown-rice}",
     "{mediterranean-style} meal with {olive-oil} and {antioxidant-vegetables}",
     "{heart-healthy-protein} with {fiber-vegetables} and {whole-grains}",
     "{plant-based-dinner} with {omega3-sources} and {colorful-vegetables}"]
  snacks :=
    ["{heart-healthy-nuts} and {antioxidant-fruits}",
     "{vegetable-sticks} with {heart-healthy-dip}",
     "{omega3-seeds} with {potassium-fruit}",
     "{dark-chocolate} with {nuts}",
     "{green-tea} with {heart-healthy-snack}"]

/-- `mealTemplates.inflammatory` (route.ts:444-473). -/
def inflammatoryTemplates : MealPlan where
  breakfast :=
    ["Golden milk oatmeal with {turmeric} and {anti-inflammatory-fruits}",
     "{omega3-rich-smoothie} with {ginger} and {leafy-greens}",
     "{anti-inflammatory-protein} with {colorful-vegetables}",
     "{chia-pudding} with {anti-inflammatory-spices} and {berries}",
     "{whole-grain} with {omega3-seeds} and {antioxidant-fruits}"]
  lunch :=
    ["{fatty-fish} with {turmeric-spiced-vegetables} and {quinoa}",
     "{anti-inflammatory-soup} with {ginger} and {healing-herbs}",
     "Salad with {omega3-rich-ingredients} and {anti-inflammatory-dressing}",
     "{lean-protein} with {turmeric-roasted-vegetables}",
     "{plant-based-anti-inflammatory} bowl with {healing-spices}"]
  dinner :=
    ["Baked {omega3-fish} with {anti-inflammatory-herbs} and {vegetables}",
     "{turmeric-spiced-protein} with {ginger-vegetables} and {whole-grains}",
     "{anti-inflammatory-curry} with {healing-spices} and {brown-rice}",
     "{lean-protein} with {colorful-anti-inflammatory-vegetables}",
     "{plant-based-protein} with {turmeric} and {omega3-sources}"]
  snacks :=
    ["Golden milk with {anti-inflammatory-nuts}",
     "{ginger-tea} with {omega3-seeds}",
     "{turmeric-hummus} with {colorful-vegetables}",
     "{anti-inflammatory-smoothie} with {berries}",
     "{healing-herbs-tea} with {nuts-seeds}"]

/-- `mealTemplates.digestive` (route.ts:474-503). -/
def digestiveTemplates : MealPlan where
  breakfast :=
    ["{probiotic-yogurt} with {prebiotic-banana} and {digestive-oats}",
     "{bone-broth} with {gentle-vegetables} and {easy-protein}",
     "{ginger-smoothie} with {digestive-friendly-fruits}",
     "{fermented-oatmeal} with {gut-healing-toppings}",
     "{digestive-tea} with {gentle-toast} and {soothing-spread}"]
  lunch :=
    ["{bone-broth-soup} with {well-cooked-vegetables} and {easy-protein}",
     "{steamed-fish} with {digestive-spices} and {gentle-grains}",
     "{fermented-vegetables} with {gut-friendly-protein}",
     "{miso-soup} with {tofu} and {seaweed}",
     "{gentle-curry} with {digestive-spices} and {easy-grains}"]
  dinner :=
    ["{steamed-protein} with {gut-soothing-vegetables}",
     "{digestive-spiced-soup} with {healing-herbs}",
     "{gentle-fish} with {fennel} and {soothing-herbs}",
     "{fermented-vegetable-stir-fry} with {ginger}",
     "{bone-broth-based-meal} with {gut-healing-ingredients}"]
  snacks :=
    ["{probiotic-kefir} with {prebiotic-fiber}",
     "{fermented-vegetables} (sauerkraut, kimchi)",
     "{ginger-tea} with {digestive-crackers}",
     "{bone-broth} with {healing-herbs}",
     "{prebiotic-fruits} with {probiotic-yogurt}"]

/-- `mealTemplates.energy` (route.ts:504-533). -/
def energyTemplates : MealPlan where
  breakfast :=
    ["Iron-rich {spinach-eggs} with {vitamin-c-fruit}",
     "{b-vitamin-nutritional-yeast} on {whole-grain-toast}",
     "{energy-smoothie} with {protein} and {healthy-fats}",
     "{quinoa-breakfast-bowl} with {energy-nuts} and {iron-rich-fruits}",
     "{oatmeal} with {energy-seeds} and {b-vitamin-toppings}"]
  lunch :=
    ["Iron-rich {lean-beef} with {energy-vegetables} and {b-vitamin-grains}",
     "{b-vitamin-salmon} with {quinoa} and {iron-rich-greens}",
     "{energy-lentil-soup} with {vitamin-c-vegetables}",
     "{spinach-salad} with {iron-rich-protein} and {energy-dressing}",
     "{energy-grain-bowl} with {protein} and {mitochondrial-support-foods}"]
  dinner :=
    ["{energy-fish} with {iron-vegetables} and {b-vitamin-grains}",
     "{b-vitamin-chicken} with {energy-supporting-vegetables}",
     "{plant-protein} with {energy-boosting-ingredients}",
     "{iron-rich-tofu} with {energy-supporting-vegetables}",
     "{energy-stir-fry} with {mitochondrial-support-foods}"]
  snacks :=
    ["{energy-nuts-seeds} mix with {iron-rich-dried-fruits}",
     "{b-vitamin-nutritional-yeast} snacks",
     "{energy-smoothie} with {protein-powder}",
     "{iron-rich-dark-chocolate} with {energy-nuts}",
     "{adaptogenic-tea} with {energy-supporting-snacks}"]

/-- `mealTemplates.weight` (route.ts:534-563). -/
def weightTemplates : MealPlan where
  breakfast :=
    ["High-protein {low-calorie-omelet} with {high-volume-vegetables}",
     "{fiber-oatmeal} with {protein-powder} and {low-calorie-fruits}",
     "{protein-smoothie} with {low-calorie-vegetables} and {fiber}",
     "{high-fiber-bowl} with {lean-protein} and {volume-foods}",
     "{protein-yogurt} with {fiber-toppings} and {metabolism-boosters}"]
  lunch :=
    ["Large {volume-salad} with {lean-protein} and {healthy-fats}",
     "{vegetable-soup} with {high-protein-additions}",
     "{high-protein-grain-bowl} with {low-calorie-vegetables}",
     "{lean-fish} with {high-fiber-vegetables}",
     "{protein-legume-soup} with {volume-vegetables}"]
  dinner :=
    ["{lean-protein} with {high-volume-low-calorie-vegetables}",
     "{high-protein-stir-fry} with {low-calorie-vegetables}",
     "{lean-fish} with {fiber-vegetables} and {small-grain-portion}",
     "{plant-protein} with {volume-vegetables}",
     "{portion-controlled-meal} with {satiety-foods}"]
  snacks :=
    ["{high-protein-low-calorie} snacks",
     "{fiber-vegetables} with {protein-dip}",
     "{low-calorie-high-volume-fruits}",
     "{protein-portion-controlled-nuts}",
     "{high-fiber-low-calorie-smoothie}"]

/-- The `mealTemplates` object as an ordered association list
(route.ts:383-564).  Note it has no `general` entry. -/
def mealTemplatesTable : List (String × MealPlan) :=
  [("diabetes", diabetesTemplates),
   ("cardiovascular", cardiovascularTemplates),
   ("inflammatory", inflammatoryTemplates),
   ("digestive", digestiveTemplates),
   ("energy", energyTemplates),
   ("weight", weightTemplates)]

/-- `foodSubstitutions` in source declaration order (route.ts:570-593). -/
def foodSubstitutions : List (String × List String) :=
  [("{protein}", ["Greek yogurt", "cottage cheese", "eggs", "lean chicken"]),
   ("{low-gi-fruit}", ["berries", "apple with skin", "pear", "cherries"]),
   ("{non-starchy-vegetables}", ["spinach", "bell peppers", "tomatoes", "mushrooms"]),
   ("{fiber-rich-seeds}", ["chia seeds", "flaxseeds", "hemp hearts"]),
   ("{berries}", ["blueberries", "strawberries", "raspberries", "blackberries"]),
   ("{lean-fish}", ["salmon", "cod", "tilapia", "mackerel"]),
   ("{complex-carb}", ["quinoa", "brown rice", "sweet potato"]),
   ("{fiber-vegetables}", ["broccoli", "Brussels sprouts", "artichokes"]),
   ("{omega3-nuts}", ["walnuts", "almonds", "pecans"]),
   ("{antioxidant-berries}", ["blueberries", "goji berries", "acai berries"]),
   ("{fatty-fish}", ["salmon", "mackerel", "sardines", "anchovies"]),
   ("{potassium-vegetables}", ["spinach", "sweet potatoes", "bananas"]),
   ("{turmeric}", ["turmeric powder", "fresh turmeric root"]),
   ("{anti-inflammatory-fruits}", ["tart cherries", "pineapple", "berries"]),
   ("{ginger}", ["fresh ginger", "ginger powder", "ginger tea"]),
   ("{probiotic-yogurt}", ["Greek yogurt", "kefir", "yogurt with live cultures"]),
   ("{prebiotic-banana}", ["green banana", "ripe banana", "plantain"]),
   ("{bone-broth}", ["chicken bone broth", "beef bone broth", "vegetable broth"]),
   ("{iron-rich-protein}", ["lean beef", "chicken liver", "lentils", "spinach"]),
   ("{b-vitamin-grains}", ["quinoa", "brown rice", "nutritional yeast"]),
   ("{lean-protein}", ["chicken breast", "turkey", "fish", "tofu"]),
   ("{high-volume-vegetables}", ["lettuce", "cucumber", "zucchini", "cauliflower"])]

/-- `allergySubstitutions` (route.ts:314-351): allergen → ordered list of
(term, safe alternatives) rules. -/
def allergySubstitutions : List (String × List (String × List String)) :=
  [("dairy",
    [("milk", ["oat milk", "almond milk", "coconut milk", "rice milk"]),
     ("yogurt", ["coconut yogurt", "almond yogurt", "cashew yogurt"]),
     ("cheese", ["nutritional yeast", "cashew cheese", "almond cheese"]),
     ("butter", ["olive oil", "avocado", "coconut oil", "tahini"]),
     ("cream", ["coconut cream", "cashew cream", "silken tofu"])]),
   ("gluten",
    [("wheat", ["quinoa", "rice", "buckwheat", "amaranth"]),
     ("bread", ["gluten-free bread", "rice cakes", "corn tortillas"]),
     ("pasta", ["rice noodles", "quinoa pasta", "zucchini noodles"]),
     ("oats", ["certified gluten-free oats", "quinoa flakes"]),
     ("flour", ["almond flour", "coconut flour", "rice flour"])]),
   ("nuts",
    [("almonds", ["sunflower seeds", "pumpkin seeds"]),
     ("walnuts", ["hemp seeds", "chia seeds"]),
     ("cashews", ["sunflower seeds", "hemp hearts"]),
     ("nut butter", ["sunflower seed butter", "tahini"]),
     ("almond milk", ["oat milk", "rice milk", "hemp milk"])]),
   ("eggs",
    [("eggs", ["chia eggs", "flax eggs", "aquafaba"]),
     ("omelet", ["tofu scramble", "chickpea flour pancakes"]),
     ("mayonnaise", ["avocado", "tahini", "aquafaba mayo"])]),
   ("fish",
    [("salmon", ["chicken breast", "hemp seeds", "flaxseeds"]),
     ("tuna", ["chicken", "tofu", "tempeh"]),
     ("fish oil", ["algae oil", "flaxseed oil", "chia seeds"])]),
   ("soy",
    [("tofu", ["chicken", "tempeh", "seitan"]),
     ("soy sauce", ["coconut aminos", "liquid aminos"]),
     ("soy milk", ["oat milk", "almond milk", "rice milk"])])]

/-! ## Randomness threading -/

/-- Thread the `Math.random()` draw counter through a list element by
element (JS `map` / `for … of` evaluate left to right). -/
def mapThread {α β : Type} (f : α → Nat → β × Nat) : List α → Nat → List β × Nat
  | [], k => ([], k)
  | a :: as, k =>
    let p := f a k
    let q := mapThread f as p.2
    (p.1 :: q.1, q.2)

/-- Thread the draw counter through a left fold (JS `for … of` /
`forEach` over an accumulator). -/
def foldThread {α β : Type} (f : β → α → Nat → β × Nat) : List α → β → Nat → β × Nat
  | [], b, k => (b, k)
  | a :: as, b, k =>
    let p := f b a k
    foldThread f as p.1 p.2

/-! ## Template meal-plan generator (`generateRAGMeals`) -/

/-- One iteration of the placeholder loop (route.ts:603-608): when the
current meal text contains the placeholder, draw one option and replace
the placeholder's first occurrence. -/
def fillStep (σ : Nat → Nat) (meal : String) (pr : String × List String)
    (k : Nat) : String × Nat :=
  if includesS meal pr.1 then
    (replaceOneS pr.1 (pr.2.getD (σ k % pr.2.length) "") meal, k + 1)
  else (meal, k)

/-- Placeholder filling for one template string (route.ts:598-611),
folding `fillStep` over the whole substitution table. -/
def fillTemplate (σ : Nat → Nat) (t : String) (k : Nat) : String × Nat :=
  foldThread (fun meal pr k => fillStep σ meal pr k) foodSubstitutions t k

/-- `mealTemplates[condition] || mealTemplates["diabetes"]`
(route.ts:567): there is no `general` key, so an unmatched condition
falls back to the diabetes templates. -/
def chooseTemplates (condition : String) : MealPlan :=
  match mealTemplatesTable.lookup condition with
  | some t => t
  | none => diabetesTemplates

/-- The `for (const [mealType, meals] of Object.entries(...))` loops of
`generateRAGMeals` and `applyRAGAllergyFiltering`: apply a per-string
rewriting to every slot in object key order breakfast, lunch, dinner,
snacks, threading the draw counter. -/
def planThread (f : String → Nat → String × Nat) (p : MealPlan) (k : Nat) :
    MealPlan × Nat :=
  let r := mapThread (mapThread f) [p.breakfast, p.lunch, p.dinner, p.snacks] k
  (⟨r.1.getD 0 [], r.1.getD 1 [], r.1.getD 2 [], r.1.getD 3 []⟩, r.2)

/-- `generateRAGMeals` (route.ts:381-615): expand each slot's templates
in object order breakfast, lunch, dinner, snacks.  The source's
`medicalData` and `symptoms` parameters are never read by its body and
are therefore omitted here. -/
def generateRAGMeals (condition : String) (σ : Nat → Nat) (k : Nat) : MealPlan × Nat :=
  planThread (fillTemplate σ) (chooseTemplates condition) k

/-! ## Meal-plan condition retrieval (`generateRAGBasedMealPlan`) -/

/-- `data.keywords.reduce(...)` (route.ts:359-361): +1 for each keyword
occurring as a substring of the lowercased text. -/
def conditionScore (textLower : String) (kws : List String) : Nat :=
  kws.foldl (fun acc kw => acc + if includesS textLower kw then 1 else 0) 0

/-- The `primaryCondition` selection loop (route.ts:354-367): start from
`("general", 0)` and move to a condition only when its score strictly
exceeds the best so far (so ties keep the earlier entry). -/
def classifyMealCondition (symptoms : String) : String :=
  (medicalMealKeywords.foldl
    (fun best pr =>
      let s := conditionScore (lowerStr symptoms) pr.2
      if s > best.2 then (pr.1, s) else best)
    ("general", 0)).1

/-! ## Allergy substitution engine (`applyRAGAllergyFiltering`) -/

/-- One `(allergen-term, replacements)` rule applied to one meal string
(route.ts:631-637): `regex.test` for the whole-word term, then a single
draw and a global whole-word replace by the drawn alternative. -/
def applyTermRule (σ : Nat → Nat) (meal : String) (rule : String × List String)
    (k : Nat) : String × Nat :=
  if wwContainsS rule.1 meal then
    (wwReplaceS rule.1 (rule.2.getD (σ k % rule.2.length) "") meal, k + 1)
  else (meal, k)

/-- One allergen of the filtering loop (route.ts:626-639): look up its
substitution rules — an allergen without a table entry is silently
skipped — and apply them in order. -/
def allergyStep (σ : Nat → Nat) (m : String) (a : String) (k : Nat) :
    String × Nat :=
  match allergySubstitutions.lookup (lowerStr a) with
  | none => (m, k)
  | some rules => foldThread (fun m r k => applyTermRule σ m r k) rules m k

/-- Filtering of one meal string for the whole allergy list
(route.ts:623-641), folding `allergyStep` over the allergens in caller
order. -/
def filterMealString (allergies : List String) (σ : Nat → Nat) (meal : String)
    (k : Nat) : String × Nat :=
  foldThread (fun m a k => allergyStep σ m a k) allergies meal k

/-- `applyRAGAllergyFiltering` (route.ts:617-646): identity when the
allergy list is empty, otherwise rewrite every slot in object order. -/
def applyRAGAllergyFiltering (plan : MealPlan) (allergies : List String)
    (σ : Nat → Nat) (k : Nat) : MealPlan × Nat :=
  if allergies.isEmpty then (plan, k)
  else planThread (filterMealString allergies σ) plan k

/-- `generateRAGBasedMealPlan` (route.ts:200-379).  The `useCase`
parameter is accepted and ignored exactly as in the source, which
re-classifies the condition from the symptom text. -/
def generateRAGBasedMealPlan (useCase : String) (allergies : List String)
    (symptoms : String) (σ : Nat → Nat) (k : Nat) : MealPlan × Nat :=
  let condition := classifyMealCondition symptoms
  let p := generateRAGMeals condition σ k
  applyRAGAllergyFiltering p.1 allergies σ p.2

/-! ## Document assembly (`generateComprehensiveMockResponse`) -/

/-- The `useCase` cascade (route.ts:17-38): nested conditionals checked
in declaration order; the first group with a matching keyword wins. -/
def useCaseOf (symptoms : String) : String :=
  let l := lowerStr symptoms
  if includesS l "diabetes" || includesS l "blood sugar" then "Diabetes Management"
  else if includesS l "blood pressure" || includesS l "hypertension" ||
      includesS l "heart" then "Cardiovascular Health"
  else if includesS l "joint" || includesS l "arthritis" ||
      includesS l "inflammation" then "Anti-Inflammatory Support"
  else if includesS l "digestive" || includesS l "stomach" ||
      includesS l "bloating" || includesS l "ibs" then "Digestive Health"
  else if includesS l "fatigue" || includesS l "energy" ||
      includesS l "tired" then "Energy & Vitality"
  else if includesS l "weight" || includesS l "obesity" then "Weight Management"
  else "General Wellness"

/-- The recommendation-document fields the claims mention.  The narrative
markdown is abbreviated to its fixed title line and the static `sources`
array, highlight/recommendation/supplement/lifestyle lists and timestamp
are omitted: no claim refers to their content. -/
structure Doc where
  recommendation : String
  allergyMasked : List String
  safetyScore : Nat
  confidence : Nat
  useCase : String
  mealPlan : MealPlan
  backendStatus : String
  deriving DecidableEq, Repr

/-- `allergy.charAt(0).toUpperCase() + allergy.slice(1)`
(route.ts:50). -/
def capitalizeJs (a : String) : String :=
  match a.data with
  | [] => ""
  | c :: t => String.mk (jsUpper c :: t)

/-- `allergyFiltered` (route.ts:46-52). -/
def allergyMaskOf (allergies : List String) : List String :=
  if allergies.length > 0 then
    allergies.map (fun a =>
      capitalizeJs a ++ " containing foods [Removed - Allergy: " ++ a ++ "]")
  else []

/-- `generateComprehensiveMockResponse` (route.ts:14-197), restricted to
the document fields above.  `_backendStatus` is the literal "offline"
(route.ts:194). -/
def generateComprehensiveMockResponse (symptoms : String) (allergies : List String)
    (σ : Nat → Nat) (k : Nat) : Doc × Nat :=
  let uc := useCaseOf symptoms
  let p := generateRAGBasedMealPlan uc allergies symptoms σ k
  ({ recommendation := "# 🏥 Comprehensive Dietary Analysis & Recommendations",
     allergyMasked := allergyMaskOf allergies,
     safetyScore := if allergies.length > 0 then 96 else 99,
     confidence := 88,
     useCase := uc,
     mealPlan := p.1,
     backendStatus := "offline" }, p.2)

/-! ## Classifier variants written from the specification's words -/

/-- The keyword groups of the `useCase` cascade, in its declaration
order. -/
def cascadeKeywordTable : List (String × List String) :=
  [("Diabetes Management", ["diabetes", "blood sugar"]),
   ("Cardiovascular Health", ["blood pressure", "hypertension", "heart"]),
   ("Anti-Inflammatory Support", ["joint", "arthritis", "inflammation"]),
   ("Digestive Health", ["digestive", "stomach", "bloating", "ibs"]),
   ("Energy & Vitality", ["fatigue", "energy", "tired"]),
   ("Weight Management", ["weight", "obesity"])]

/-- Modelled from the claim's words (claim C3, spec §4.1), for comparison
with `useCaseOf`: per category, score = number of its keywords occurring
as substrings of the lowercased text; the strictly highest score wins;
ties resolve to the earliest category; `General Wellness` when every
score is zero. -/
def specScoreClassifier (symptoms : String) : String :=
  (cascadeKeywordTable.foldl
    (fun best pr =>
      let s := conditionScore (lowerStr symptoms) pr.2
      if s > best.2 then (pr.1, s) else best)
    ("General Wellness", 0)).1

/-- First-match reading of the cascade: the earliest category in
declaration order with at least one keyword occurring as a substring of
the lowercased text, `General Wellness` if none. -/
def firstMatchClassifier (symptoms : String) : String :=
  match cascadeKeywordTable.find?
      (fun pr => pr.2.any (fun kw => includesS (lowerStr symptoms) kw)) with
  | some pr => pr.1
  | none => "General Wellness"

/-! ## The request handler (`POST`, route.ts:1215-1368) -/

/-- JSON values as produced by `request.json()` and by the backend body.
Numbers are restricted to integers: no claim depends on fractional
values. -/
inductive Json where
  | null
  | bool (b : Bool)
  | num (n : Int)
  | str (s : String)
  | arr (xs : List Json)
  | obj (fields : List (String × Json))
  deriving Repr

/-- Whether a JSON value is `null`. -/
def isNull : Json → Bool
  | .null => true
  | _ => false

/-- JS truthiness of a JSON value. -/
def truthy : Json → Bool
  | .null => false
  | .bool b => b
  | .num n => n != 0
  | .str s => s != ""
  | .arr _ => true
  | .obj _ => true

/-- `typeof v === "object"` for a JSON value (objects, arrays and
`null`). -/
def isObjLike : Json → Bool
  | .obj _ => true
  | .arr _ => true
  | .null => true
  | _ => false

/-- Property access `v.f` on a parsed JSON value: a field lookup on
objects, `undefined` (`none`) otherwise.  (`null.f`, which throws, is
special-cased by `POST` itself.) -/
def jsGet : Json → String → Option Json
  | .obj fields, f => fields.lookup f
  | _, _ => none

/-- The symptoms validation (route.ts:1228), negated: the request passes
iff the field holds a truthy string whose trimmed length is at least 10.
(`!symptoms` and `typeof symptoms !== "string"` reject everything
else.) -/
def symptomsOk : Option Json → Bool
  | some (.str s) => s != "" && 10 ≤ (trimStr s).data.length
  | _ => false

/-- The allergies value after the destructuring default
`allergies = []` (route.ts:1225): `[]` exactly when the field is
absent. -/
def allergiesVal (v : Json) : Json := (jsGet v "allergies").getD (.arr [])

/-- `Array.isArray` (route.ts:1232). -/
def isArr : Json → Bool
  | .arr _ => true
  | _ => false

/-- The allergy elements as strings when every element is a string;
`none` when some element is not, in which case the local generator's
`charAt` / `toLowerCase` calls on it throw (route.ts:50, 627). -/
def asStringList : List Json → Option (List String)
  | [] => some []
  | .str s :: t => (asStringList t).map (fun l => s :: l)
  | _ => none

/-- A response actually delivered by `fetch`: `ok` is `response.ok`
(status 200-299), `contentType` the `content-type` header (`""` when
absent), `body` the outcome of `response.json()`. -/
structure RemoteResponse where
  ok : Bool
  contentType : String
  body : Except Unit Json

/-- Behaviour of the 15 s-bounded backend fetch: `unreachable` covers the
timeout abort and every network error (the promise rejects); otherwise a
response is delivered. -/
inductive RemoteOutcome where
  | unreachable
  | respond (r : RemoteResponse)

/-- `a || b || dflt` over two optional JSON field reads: the first truthy
value, else the default (`undefined` and `null` are both falsy). -/
def jsOrJ (a b : Option Json) (dflt : Json) : Json :=
  if truthy (a.getD .null) then a.getD .null
  else if truthy (b.getD .null) then b.getD .null
  else dflt

/-- Normalizing string extraction for `Doc` fields fed from backend JSON;
backend values of non-conforming shape collapse to the default, on which
no claim depends. -/
def jsonStr (v : Json) (dflt : String) : String :=
  match v with
  | .str s => s
  | _ => dflt

/-- Normalizing numeric extraction for `Doc` fields fed from backend
JSON. -/
def jsonNat (v : Json) (dflt : Nat) : Nat :=
  match v with
  | .num n => n.toNat
  | _ => dflt

/-- Normalizing string-array extraction for `Doc` fields fed from backend
JSON. -/
def jsonStrList : Json → List String
  | .arr xs =>
    xs.filterMap (fun x =>
      match x with
      | .str s => some s
      | _ => none)
  | _ => []

/-- Normalizing meal-plan extraction for the `connected` document. -/
def jsonPlan (v : Json) : MealPlan where
  breakfast := jsonStrList ((jsGet v "breakfast").getD (.arr []))
  lunch := jsonStrList ((jsGet v "lunch").getD (.arr []))
  dinner := jsonStrList ((jsGet v "dinner").getD (.arr []))
  snacks := jsonStrList ((jsGet v "snacks").getD (.arr []))

/-- The `connected` response assembly (route.ts:1295-1320), restricted to
the `Doc` fields, tolerating the two field-naming conventions per
field. -/
def connectedDoc (b : Json) : Doc where
  recommendation := jsonStr ((jsGet b "recommendation").getD .null) ""
  allergyMasked :=
    jsonStrList (jsOrJ (jsGet b "allergy_masked") (jsGet b "allergyMasked") (.arr []))
  safetyScore := jsonNat (jsOrJ (jsGet b "safety_score") (jsGet b "safetyScore") (.num 85)) 85
  confidence := jsonNat (jsOrJ (jsGet b "confidence") none (.num 80)) 80
  useCase :=
    jsonStr (jsOrJ (jsGet b "use_case") (jsGet b "useCase") (.str "General Wellness"))
      "General Wellness"
  mealPlan := jsonPlan (jsOrJ (jsGet b "meal_plan") (jsGet b "mealPlan") (.obj []))
  backendStatus := "connected"

/-- The last-resort static document (route.ts:1346-1365), restricted to
the `Doc` fields. -/
def staticDoc : Doc where
  recommendation := "We recommend consulting with a healthcare professional for personalized dietary advice based on your specific symptoms and health conditions."
  allergyMasked := []
  safetyScore := 100
  confidence := 50
  useCase := "General Health"
  mealPlan := ⟨[], [], [], []⟩
  backendStatus := "emergency"

/-- A response of the route handler. -/
inductive HttpBody where
  | errObj (msg : String)
  | envelope (d : Doc)
  deriving DecidableEq, Repr

/-- Status code plus body. -/
structure HttpResponse where
  status : Nat
  body : HttpBody
  deriving DecidableEq, Repr

/-- The outer `catch` (route.ts:1330-1367): regenerate with the fixed
symptoms `"general health concerns"` and no allergies, tagged tier
`error`; if that itself throws (oracle `emergencyThrows`), return
`staticDoc`, tagged tier `emergency`.  Both return status 200. -/
def errorFallback (emergencyThrows : Bool) (σ : Nat → Nat) : HttpResponse :=
  if emergencyThrows then ⟨200, .envelope staticDoc⟩
  else
    let p := generateComprehensiveMockResponse "general health concerns" [] σ 0
    ⟨200, .envelope { p.1 with backendStatus := "error" }⟩

/-- The inner `catch` (route.ts:1321-1329): build the comprehensive mock
from the trimmed symptoms and the request allergies, status 200, tier
`offline`.  An exception here — the oracle `localThrows`, or a non-string
allergy element — escapes to the outer `catch`. -/
def offlinePath (symptoms : String) (items : List Json)
    (localThrows emergencyThrows : Bool) (σ : Nat → Nat) : HttpResponse :=
  if localThrows then errorFallback emergencyThrows σ
  else
    match asStringList items with
    | none => errorFallback emergencyThrows σ
    | some allergies =>
      let p := generateComprehensiveMockResponse (trimStr symptoms) allergies σ 0
      ⟨200, .envelope p.1⟩

/-- `POST` (route.ts:1215-1368).  `parse` is the outcome of
`request.json()`; `remote` the behaviour of the backend fetch;
`localThrows` / `emergencyThrows` are oracles for a runtime exception
inside the respective generation attempt; `σ` is the `Math.random()`
stream. -/
def POST (parse : Except Unit Json) (remote : RemoteOutcome)
    (localThrows emergencyThrows : Bool) (σ : Nat → Nat) : HttpResponse :=
  match parse with
  | .error _ => ⟨400, .errObj "Invalid JSON in request body"⟩
  | .ok v =>
    if isNull v then
      -- `const { symptoms, allergies = [] } = null` throws `TypeError`,
      -- reaching the outer catch
      errorFallback emergencyThrows σ
    else if symptomsOk (jsGet v "symptoms") = false then
      ⟨400, .errObj "Please provide detailed symptoms (at least 10 characters)"⟩
    else
      match allergiesVal v with
      | .arr items =>
        let symptoms := jsonStr ((jsGet v "symptoms").getD .null) ""
        match remote with
        | .unreachable => offlinePath symptoms items localThrows emergencyThrows σ
        | .respond r =>
          if r.ok then
            if includesS r.contentType "application/json" then
              match r.body with
              | .ok b =>
                if truthy b && isObjLike b &&
                    truthy ((jsGet b "recommendation").getD .null) then
                  ⟨200, .envelope (connectedDoc b)⟩
                else offlinePath symptoms items localThrows emergencyThrows σ
              | .error _ => offlinePath symptoms items localThrows emergencyThrows σ
            else offlinePath symptoms items localThrows emergencyThrows σ
          else offlinePath symptoms items localThrows emergencyThrows σ
      | _ => ⟨400, .errObj "Allergies must be provided as an array"⟩

/-- The requests that pass the pre-generation input validation of
`POST`. -/
def validRequest (parse : Except Unit Json) : Bool :=
  match parse with
  | .error _ => false
  | .ok v =>
    !isNull v && symptomsOk (jsGet v "symptoms") && isArr (allergiesVal v)

/-- Whether the inner `try` reaches the `connected` return:
`response.ok`, JSON content type, parsable body, and a truthy
object-typed body with a truthy `recommendation` field
(route.ts:1265-1290). -/
def remoteDelivers : RemoteOutcome → Bool
  | .unreachable => false
  | .respond r =>
    r.ok && includesS r.contentType "application/json" &&
    (match r.body with
     | .ok b => truthy b && isObjLike b && truthy ((jsGet b "recommendation").getD .null)
     | .error _ => false)

/-- Whether the local generation attempt throws: the exception oracle, or
a non-string allergy element. -/
def localGenFails (localThrows : Bool) (items : List Json) : Bool :=
  localThrows || (asStringList items).isNone

/-- The envelope tier the orchestrator assigns, as a function of the
remote behaviour and the exception oracles. -/
def tierOf (remote : RemoteOutcome) (localFails emergencyThrows : Bool) : String :=
  if remoteDelivers remote then "connected"
  else if localFails = false then "offline"
  else if emergencyThrows = false then "error"
  else "emergency"

/-! ## The health probe (`GET`, route.ts:1371-1419) -/

/-- The `frontend` object of the health response. -/
structure Frontend where
  timestamp : String
  version : String
  mode : String
  deriving DecidableEq, Repr

/-- GET response body: the probe status plus the `frontend` object (the
`backend`, `error` and `message` fields are omitted: no claim mentions
them). -/
structure HealthBody where
  status : String
  frontend : Frontend
  deriving DecidableEq, Repr

/-- Behaviour of the 5 s-bounded backend health fetch. -/
inductive HealthOutcome where
  | unreachable
  | respond (ok : Bool) (body : Except Unit Json)

/-- `GET` (route.ts:1371-1419); `now` stands for
`new Date().toISOString()`.  Any failure — unreachable backend, non-2xx
status (route.ts:1389) or unparsable body (route.ts:1393) — lands in the
`catch`, which still returns status 200. -/
def GET (now : String) (o : HealthOutcome) : Nat × HealthBody :=
  match o with
  | .respond true (.ok _) => (200, ⟨"healthy", ⟨now, "2.0.0", "connected"⟩⟩)
  | _ => (200, ⟨"backend_offline", ⟨now, "2.0.0", "offline_with_mock_responses"⟩⟩)

/-! ## Generic facts about draw-counter threading -/

theorem foldThread_counter_mono {α β : Type} (f : β → α → Nat → β × Nat)
    (hf : ∀ b a k, k ≤ (f b a k).2) :
    ∀ (l : List α) (b : β) (k : Nat), k ≤ (foldThread f l b k).2 := by
  intro l
  induction l with
  | nil => intro b k; exact le_refl k
  | cons a as ih => intro b k; exact le_trans (hf b a k) (ih _ _)

theorem mapThread_counter_mono {α β : Type} (f : α → Nat → β × Nat)
    (hf : ∀ a k, k ≤ (f a k).2) :
    ∀ (l : List α) (k : Nat), k ≤ (mapThread f l k).2 := by
  intro l
  induction l with
  | nil => intro k; exact le_refl k
  | cons a as ih => intro k; exact le_trans (hf a k) (ih _)

/-- A threaded fold only depends on the draws it consumes: if property
`A` (read: "the two streams agree at this index") holds on the consumed
range and each step respects it, the two folds coincide. -/
theorem foldThread_congr {α β : Type} (A : Nat → Prop) (f g : β → α → Nat → β × Nat)
    (hmono : ∀ b a k, k ≤ (f b a k).2)
    (hstep : ∀ b a k, (∀ i, k ≤ i → i < (f b a k).2 → A i) → f b a k = g b a k) :
    ∀ (l : List α) (b : β) (k : Nat),
      (∀ i, k ≤ i → i < (foldThread f l b k).2 → A i) →
      foldThread f l b k = foldThread g l b k := by
  intro l
  induction l with
  | nil => intro b k _; rfl
  | cons a as ih =>
    intro b k hA
    have hub : (f b a k).2 ≤ (foldThread f as (f b a k).1 (f b a k).2).2 :=
      foldThread_counter_mono f hmono as _ _
    have h1 : f b a k = g b a k :=
      hstep b a k (fun i hi1 hi2 => hA i hi1 (lt_of_lt_of_le hi2 hub))
    show foldThread f as (f b a k).1 (f b a k).2 =
      foldThread g as (g b a k).1 (g b a k).2
    rw [← h1]
    exact ih (f b a k).1 (f b a k).2
      (fun i hi1 hi2 => hA i (le_trans (hmono b a k) hi1) hi2)

theorem mapThread_congr {α β : Type} (A : Nat → Prop) (f g : α → Nat → β × Nat)
    (hmono : ∀ a k, k ≤ (f a k).2)
    (hstep : ∀ a k, (∀ i, k ≤ i → i < (f a k).2 → A i) → f a k = g a k) :
    ∀ (l : List α) (k : Nat),
      (∀ i, k ≤ i → i < (mapThread f l k).2 → A i) →
      mapThread f l k = mapThread g l k := by
  intro l
  induction l with
  | nil => intro k _; rfl
  | cons a as ih =>
    intro k hA
    have hub : (f a k).2 ≤ (mapThread f as (f a k).2).2 :=
      mapThread_counter_mono f hmono as _
    have h1 : f a k = g a k :=
      hstep a k (fun i hi1 hi2 => hA i hi1 (lt_of_lt_of_le hi2 hub))
    show ((f a k).1 :: (mapThread f as (f a k).2).1, (mapThread f as (f a k).2).2) =
      ((g a k).1 :: (mapThread g as (g a k).2).1, (mapThread g as (g a k).2).2)
    rw [← h1]
    have h2 : mapThread f as (f a k).2 = mapThread g as (f a k).2 :=
      ih (f a k).2 (fun i hi1 hi2 => hA i (le_trans (hmono a k) hi1) hi2)
    rw [h2]

theorem planThread_counter_mono (f : String → Nat → String × Nat)
    (hf : ∀ a k, k ≤ (f a k).2) (p : MealPlan) (k : Nat) :
    k ≤ (planThread f p k).2 := by
  exact mapThread_counter_mono _ (fun a k => mapThread_counter_mono f hf a k) _ k

theorem planThread_congr (A : Nat → Prop) (f g : String → Nat → String × Nat)
    (hmono : ∀ a k, k ≤ (f a k).2)
    (hstep : ∀ a k, (∀ i, k ≤ i → i < (f a k).2 → A i) → f a k = g a k)
    (p : MealPlan) (k : Nat)
    (hA : ∀ i, k ≤ i → i < (planThread f p k).2 → A i) :
    planThread f p k = planThread g p k := by
  have h :
      mapThread (mapThread f) [p.breakfast, p.lunch, p.dinner, p.snacks] k =
        mapThread (mapThread g) [p.breakfast, p.lunch, p.dinner, p.snacks] k := by
    exact mapThread_congr A _ _ (fun a k => mapThread_counter_mono f hmono a k)
      (fun a k hA2 => mapThread_congr A f g hmono hstep a k hA2)
      [p.breakfast, p.lunch, p.dinner, p.snacks] k hA
  simp only [planThread, h]

/-! ## Claim theorems -/

/-- C5: for every symptom text (hence every condition category), every
allergy list, and every random stream and counter, the locally generated
document's `safetyScore` is exactly 99 when the allergy list is empty and
exactly 96 when it is non-empty — a fixed constant, not computed from the
filtering. -/
theorem safetyScore_fixed_constants (symptoms : String) (allergies : List String)
    (σ : Nat → Nat) (k : Nat) :
    (generateComprehensiveMockResponse symptoms allergies σ k).1.safetyScore =
      if allergies = [] then 99 else 96 := by
  cases allergies <;> simp [generateComprehensiveMockResponse]

/-- C8: for every behaviour of the remote health endpoint, GET returns
status 200, a `status` field equal to "healthy" or "backend_offline", and
a `frontend` object carrying the timestamp, the version "2.0.0", and a
mode; the local service is never reported unhealthy because of the remote
dependency. -/
theorem get_always_succeeds (now : String) (o : HealthOutcome) :
    (GET now o).1 = 200 ∧
    ((GET now o).2.status = "healthy" ∨ (GET now o).2.status = "backend_offline") ∧
    (GET now o).2.frontend.timestamp = now ∧
    (GET now o).2.frontend.version = "2.0.0" ∧
    ((GET now o).2.frontend.mode = "connected" ∨
      (GET now o).2.frontend.mode = "offline_with_mock_responses") := by
  rcases o with _ | ⟨ok, body⟩
  · simp [GET]
  · rcases ok <;> rcases body <;> simp [GET]

/-- C10: on the symptom text "worried about cholesterol levels" the
returned document's use-case label is General Wellness (the cascade has
no "cholesterol" keyword) while the meal-plan condition scorer — whose
keyword set does contain "cholesterol" — selects cardiovascular, so the
meal plan is built from the cardiovascular templates. -/
theorem useCase_and_mealPlan_condition_disagree :
    useCaseOf "worried about cholesterol levels" = "General Wellness" ∧
    classifyMealCondition "worried about cholesterol levels" = "cardiovascular" ∧
    chooseTemplates (classifyMealCondition "worried about cholesterol levels") =
      cardiovascularTemplates := by
  refine ⟨?_, ?_, ?_⟩ <;> decide

/-- C3 counterexample: on "diabetes blood pressure hypertension heart"
the document's use-case selector answers Diabetes Management (first
matching cascade branch) although the per-category scores are 1 for
Diabetes Management and 3 for Cardiovascular Health, so the
strictly-highest-score rule stated by the claim would answer
Cardiovascular Health: the selector is not score-based. -/
theorem useCase_not_score_based :
    useCaseOf "diabetes blood pressure hypertension heart" = "Diabetes Management" ∧
    specScoreClassifier "diabetes blood pressure hypertension heart" =
      "Cardiovascular Health" ∧
    useCaseOf "diabetes blood pressure hypertension heart" ≠
      specScoreClassifier "diabetes blood pressure hypertension heart" := by
  refine ⟨?_, ?_, ?_⟩ <;> decide

/-- C3 amended: the document's use-case selector is a first-match
cascade: it returns the earliest category in declaration order having at
least one keyword that occurs as a substring of the lowercased text, and
General Wellness when no category has one; scores are never compared
across categories. -/
theorem useCase_is_first_match (s : String) :
    useCaseOf s = firstMatchClassifier s := by
  simp only [useCaseOf, firstMatchClassifier, cascadeKeywordTable, List.find?,
    List.any_cons, List.any_nil, Bool.or_false]
  cases h1 : includesS (lowerStr s) "diabetes" || includesS (lowerStr s) "blood sugar" <;>
  cases h2 : includesS (lowerStr s) "blood pressure" ||
      (includesS (lowerStr s) "hypertension" || includesS (lowerStr s) "heart") <;>
  cases h3 : includesS (lowerStr s) "joint" ||
      (includesS (lowerStr s) "arthritis" || includesS (lowerStr s) "inflammation") <;>
  cases h4 : includesS (lowerStr s) "digestive" ||
      (includesS (lowerStr s) "stomach" ||
        (includesS (lowerStr s) "bloating" || includesS (lowerStr s) "ibs")) <;>
  cases h5 : includesS (lowerStr s) "fatigue" ||
      (includesS (lowerStr s) "energy" || includesS (lowerStr s) "tired") <;>
  cases h6 : includesS (lowerStr s) "weight" || includesS (lowerStr s) "obesity" <;>
  simp [h1, h2, h3, h4, h5, h6, Bool.or_assoc]

set_option maxRecDepth 100000 in
set_option maxHeartbeats 2000000 in
/-- C2 counterexample: generate the meal plan for symptoms
"joint pain and inflammation all week" (condition inflammatory) with the
all-zeros draw stream, then run the allergy substitution engine for
allergies = ["dairy"] (part of `generateRAGBasedMealPlan`): the first
breakfast item still contains a whole-word, case-insensitive match of
"milk" — a term registered under the declared allergen "dairy" — because
"milk" was replaced by "oat milk", which itself contains "milk". -/
theorem allergy_filter_leaves_milk :
    wwContainsS "milk"
      ((generateRAGBasedMealPlan "Anti-Inflammatory Support" ["dairy"]
          "joint pain and inflammation all week" (fun _ => 0) 0).1.breakfast.getD 0 "")
      = true := by decide

/-- After the "milk" rule has fired, none of the remaining dairy term
rules matches any of its possible outputs, so they rewrite nothing and
draw nothing. -/
theorem dairy_tail_skip (m : String)
    (hy : wwContainsS "yogurt" m = false) (hc : wwContainsS "cheese" m = false)
    (hbu : wwContainsS "butter" m = false) (hcr : wwContainsS "cream" m = false)
    (σ : Nat → Nat) (k : Nat) :
    (foldThread (fun m r k => applyTermRule σ m r k)
      [("yogurt", ["coconut yogurt", "almond yogurt", "cashew yogurt"]),
       ("cheese", ["nutritional yeast", "cashew cheese", "almond cheese"]),
       ("butter", ["olive oil", "avocado", "coconut oil", "tahini"]),
       ("cream", ["coconut cream", "cashew cream", "silken tofu"])] m k).1 = m := by
  simp [foldThread, applyTermRule, hy, hc, hbu, hcr]

set_option maxRecDepth 100000 in
set_option maxHeartbeats 2000000 in
/-- C2 amended: on the same generated meal text, the substitution pass
leaves a whole-word match of "milk" for *every* draw stream and counter:
each of the four replacement alternatives for the dairy term "milk"
("oat milk", "almond milk", "coconut milk", "rice milk") itself contains
the whole word "milk", so the single sweep rewrites every original
occurrence yet can never eliminate the term. -/
theorem allergy_filter_milk_always_survives (σ : Nat → Nat) (k : Nat) :
    wwContainsS "milk"
      ((filterMealString ["dairy"] σ
        ((generateRAGMeals "inflammatory" (fun _ => 0) 0).1.breakfast.getD 0 "") k).1)
      = true := by
  have hb : (generateRAGMeals "inflammatory" (fun _ => 0) 0).1.breakfast.getD 0 "" =
      "Golden milk oatmeal with turmeric powder and tart cherries" := by decide
  rw [hb]
  have hred : filterMealString ["dairy"] σ
      "Golden milk oatmeal with turmeric powder and tart cherries" k =
      foldThread (fun m r k => applyTermRule σ m r k)
        [("yogurt", ["coconut yogurt", "almond yogurt", "cashew yogurt"]),
         ("cheese", ["nutritional yeast", "cashew cheese", "almond cheese"]),
         ("butter", ["olive oil", "avocado", "coconut oil", "tahini"]),
         ("cream", ["coconut cream", "cashew cream", "silken tofu"])]
        (wwReplaceS "milk"
          (["oat milk", "almond milk", "coconut milk", "rice milk"].getD (σ k % 4) "")
          "Golden milk oatmeal with turmeric powder and tart cherries") (k + 1) := rfl
  rw [hred]
  have h4 : σ k % 4 = 0 ∨ σ k % 4 = 1 ∨ σ k % 4 = 2 ∨ σ k % 4 = 3 := by omega
  rcases h4 with h | h | h | h <;> rw [h] <;>
    rw [dairy_tail_skip _ (by decide) (by decide) (by decide) (by decide)] <;> decide

/-- C4 counterexample: a valid request declaring allergies ["dairy"],
answered by a backend delivering the JSON object
{"recommendation": "ok"}, produces the connected envelope whose
`allergyMasked` list is empty although the request's allergies list is
non-empty: on the connected path `allergyMasked` is whatever the backend
supplied, so the iff does not hold on every generation path. -/
theorem allergyMasked_iff_fails :
    POST (.ok (Json.obj [("symptoms", Json.str "persistent headaches daily"),
        ("allergies", Json.arr [Json.str "dairy"])]))
      (.respond ⟨true, "application/json",
        .ok (Json.obj [("recommendation", Json.str "ok")])⟩)
      false false (fun _ => 0)
      = ⟨200, .envelope (connectedDoc (Json.obj [("recommendation", Json.str "ok")]))⟩ ∧
    (connectedDoc (Json.obj [("recommendation", Json.str "ok")])).allergyMasked = [] ∧
    (connectedDoc (Json.obj [("recommendation", Json.str "ok")])).backendStatus =
      "connected" := by
  refine ⟨?_, ?_, ?_⟩ <;> decide

/-- C4 amended: the non-empty-iff invariant holds exactly for the locally
generated (offline-tier) document: the mock generator's `allergyMasked`
is empty iff the allergy list is empty.  The error-tier fallback always
regenerates with an empty allergy list and the emergency static document
carries an empty `allergyMasked`, so on those tiers the field is empty
regardless of the request's allergies; on the connected tier it is
whatever the backend supplied. -/
theorem allergyMasked_iff_offline_only (symptoms : String) (allergies : List String)
    (σ : Nat → Nat) (k : Nat) :
    ((generateComprehensiveMockResponse symptoms allergies σ k).1.allergyMasked = []
      ↔ allergies = []) ∧
    (errorFallback false σ).body =
      .envelope { (generateComprehensiveMockResponse "general health concerns" [] σ 0).1
          with backendStatus := "error" } ∧
    staticDoc.allergyMasked = [] := by
  refine ⟨?_, rfl, rfl⟩
  cases allergies <;> simp [generateComprehensiveMockResponse, allergyMaskOf]

/-- A keyword fold contributes nothing when no keyword occurs in the
text. -/
theorem score_foldl_acc (l : String) (kws : List String)
    (h : ∀ kw ∈ kws, includesS l kw = false) :
    ∀ acc, kws.foldl (fun acc kw => acc + if includesS l kw then 1 else 0) acc = acc := by
  induction kws with
  | nil => intro acc; rfl
  | cons a t ih =>
    intro acc
    have ha := h a (by simp)
    simp only [List.foldl_cons, ha, if_false, Nat.add_zero, Bool.false_eq_true]
    exact ih (fun kw hk => h kw (by simp [hk])) acc

/-- `conditionScore` is zero when no keyword occurs in the text. -/
theorem conditionScore_zero (l : String) (kws : List String)
    (h : ∀ kw ∈ kws, includesS l kw = false) : conditionScore l kws = 0 :=
  score_foldl_acc l kws h 0

/-- C9: when no keyword of the meal database occurs in the lowercased
symptom text, the selected condition stays "general"; the template table
has no "general" entry, so the template lookup falls back to the diabetes
templates — not to a General Wellness set — and the generated meal plan
is built from the diabetes templates. -/
theorem general_condition_uses_diabetes_templates (s : String)
    (h : ∀ pr ∈ medicalMealKeywords, ∀ kw ∈ pr.2, includesS (lowerStr s) kw = false) :
    classifyMealCondition s = "general" ∧
    mealTemplatesTable.lookup "general" = none ∧
    chooseTemplates (classifyMealCondition s) = diabetesTemplates ∧
    ∀ σ k, generateRAGMeals (classifyMealCondition s) σ k =
      planThread (fillTemplate σ) diabetesTemplates k := by
  have h1 := conditionScore_zero (lowerStr s) _
    (h ("diabetes", ["blood sugar", "glucose", "insulin", "diabetes", "a1c", "glycemic"])
      (by decide))
  have h2 := conditionScore_zero (lowerStr s) _
    (h ("cardiovascular",
        ["blood pressure", "heart", "cholesterol", "hypertension", "cardiac", "circulation"])
      (by decide))
  have h3 := conditionScore_zero (lowerStr s) _
    (h ("inflammatory",
        ["joint pain", "arthritis", "inflammation", "swelling", "stiffness", "autoimmune"])
      (by decide))
  have h4 := conditionScore_zero (lowerStr s) _
    (h ("digestive",
        ["stomach", "digestive", "bloating", "ibs", "gut", "constipation", "diarrhea"])
      (by decide))
  have h5 := conditionScore_zero (lowerStr s) _
    (h ("energy", ["fatigue", "tired", "energy", "exhausted", "weakness", "lethargy"])
      (by decide))
  have h6 := conditionScore_zero (lowerStr s) _
    (h ("weight", ["weight", "obesity", "overweight", "bmi", "weight loss", "weight gain"])
      (by decide))
  have hc : classifyMealCondition s = "general" := by
    simp [classifyMealCondition, medicalMealKeywords, h1, h2, h3, h4, h5, h6]
  have hg : chooseTemplates "general" = diabetesTemplates := by decide
  refine ⟨hc, by decide, ?_, ?_⟩
  · rw [hc, hg]
  · intro σ k
    simp only [generateRAGMeals, hc, hg]

/-! ## Determinism of the generator relative to the draw stream (C6) -/

theorem fillStep_mono (σ : Nat → Nat) (b : String) (a : String × List String)
    (k : Nat) : k ≤ (fillStep σ b a k).2 := by
  unfold fillStep; split <;> simp

theorem fillStep_congrA (σ1 σ2 : Nat → Nat) (b : String) (a : String × List String)
    (k : Nat) (hA : ∀ i, k ≤ i → i < (fillStep σ1 b a k).2 → σ1 i = σ2 i) :
    fillStep σ1 b a k = fillStep σ2 b a k := by
  by_cases hin : includesS b a.1 = true
  · have hk : σ1 k = σ2 k := hA k (le_refl k) (by simp [fillStep, hin])
    simp [fillStep, hin, hk]
  · simp [fillStep, hin]

theorem applyTermRule_mono (σ : Nat → Nat) (m : String) (r : String × List String)
    (k : Nat) : k ≤ (applyTermRule σ m r k).2 := by
  unfold applyTermRule; split <;> simp

theorem applyTermRule_congrA (σ1 σ2 : Nat → Nat) (m : String)
    (r : String × List String) (k : Nat)
    (hA : ∀ i, k ≤ i → i < (applyTermRule σ1 m r k).2 → σ1 i = σ2 i) :
    applyTermRule σ1 m r k = applyTermRule σ2 m r k := by
  by_cases hin : wwContainsS r.1 m = true
  · have hk : σ1 k = σ2 k := hA k (le_refl k) (by simp [applyTermRule, hin])
    simp [applyTermRule, hin, hk]
  · simp [applyTermRule, hin]

theorem allergyStep_mono (σ : Nat → Nat) (m : String) (a : String) (k : Nat) :
    k ≤ (allergyStep σ m a k).2 := by
  cases h : List.lookup (lowerStr a) allergySubstitutions with
  | none => simp [allergyStep, h]
  | some rules =>
    simpa [allergyStep, h] using
      foldThread_counter_mono _ (fun b r k => applyTermRule_mono σ b r k) rules m k

theorem allergyStep_congrA (σ1 σ2 : Nat → Nat) (m : String) (a : String) (k : Nat)
    (hA : ∀ i, k ≤ i → i < (allergyStep σ1 m a k).2 → σ1 i = σ2 i) :
    allergyStep σ1 m a k = allergyStep σ2 m a k := by
  cases h : List.lookup (lowerStr a) allergySubstitutions with
  | none => simp [allergyStep, h]
  | some rules =>
    simp only [allergyStep, h] at hA ⊢
    exact foldThread_congr (fun i => σ1 i = σ2 i) _ _
      (fun b r k => applyTermRule_mono σ1 b r k)
      (fun b r k hA2 => applyTermRule_congrA σ1 σ2 b r k hA2) rules m k hA

theorem fillTemplate_mono (σ : Nat → Nat) (t : String) (k : Nat) :
    k ≤ (fillTemplate σ t k).2 :=
  foldThread_counter_mono _ (fun b a k => fillStep_mono σ b a k) foodSubstitutions t k

theorem fillTemplate_congrA (σ1 σ2 : Nat → Nat) (t : String) (k : Nat)
    (hA : ∀ i, k ≤ i → i < (fillTemplate σ1 t k).2 → σ1 i = σ2 i) :
    fillTemplate σ1 t k = fillTemplate σ2 t k :=
  foldThread_congr (fun i => σ1 i = σ2 i) _ _
    (fun b a k => fillStep_mono σ1 b a k)
    (fun b a k hA2 => fillStep_congrA σ1 σ2 b a k hA2) foodSubstitutions t k hA

theorem filterMealString_mono (allergies : List String) (σ : Nat → Nat) (m : String)
    (k : Nat) : k ≤ (filterMealString allergies σ m k).2 :=
  foldThread_counter_mono _ (fun m a k => allergyStep_mono σ m a k) allergies m k

theorem filterMealString_congrA (allergies : List String) (σ1 σ2 : Nat → Nat)
    (m : String) (k : Nat)
    (hA : ∀ i, k ≤ i → i < (filterMealString allergies σ1 m k).2 → σ1 i = σ2 i) :
    filterMealString allergies σ1 m k = filterMealString allergies σ2 m k :=
  foldThread_congr (fun i => σ1 i = σ2 i) _ _
    (fun m a k => allergyStep_mono σ1 m a k)
    (fun m a k hA2 => allergyStep_congrA σ1 σ2 m a k hA2) allergies m k hA

theorem generateRAGMeals_mono (c : String) (σ : Nat → Nat) (k : Nat) :
    k ≤ (generateRAGMeals c σ k).2 :=
  planThread_counter_mono _ (fillTemplate_mono σ) (chooseTemplates c) k

theorem generateRAGMeals_congrA (c : String) (σ1 σ2 : Nat → Nat) (k : Nat)
    (hA : ∀ i, k ≤ i → i < (generateRAGMeals c σ1 k).2 → σ1 i = σ2 i) :
    generateRAGMeals c σ1 k = generateRAGMeals c σ2 k :=
  planThread_congr (fun i => σ1 i = σ2 i) _ _ (fillTemplate_mono σ1)
    (fun t k hA2 => fillTemplate_congrA σ1 σ2 t k hA2) (chooseTemplates c) k hA

theorem applyRAGAllergyFiltering_mono (p : MealPlan) (allergies : List String)
    (σ : Nat → Nat) (k : Nat) : k ≤ (applyRAGAllergyFiltering p allergies σ k).2 := by
  by_cases he : allergies.isEmpty = true
  · simp [applyRAGAllergyFiltering, he]
  · simp only [applyRAGAllergyFiltering, he, if_false, Bool.false_eq_true]
    exact planThread_counter_mono _
      (fun m k => filterMealString_mono allergies σ m k) p k

theorem applyRAGAllergyFiltering_congrA (p : MealPlan) (allergies : List String)
    (σ1 σ2 : Nat → Nat) (k : Nat)
    (hA : ∀ i, k ≤ i → i < (applyRAGAllergyFiltering p allergies σ1 k).2 → σ1 i = σ2 i) :
    applyRAGAllergyFiltering p allergies σ1 k = applyRAGAllergyFiltering p allergies σ2 k := by
  by_cases he : allergies.isEmpty = true
  · simp [applyRAGAllergyFiltering, he]
  · simp only [applyRAGAllergyFiltering, he, if_false, Bool.false_eq_true] at hA ⊢
    exact planThread_congr (fun i => σ1 i = σ2 i) _ _
      (fun m k => filterMealString_mono allergies σ1 m k)
      (fun m k hA2 => filterMealString_congrA allergies σ1 σ2 m k hA2) p k hA

/-- C6 amended: the meal-plan pipeline is a deterministic function of its
inputs together with the random draws it consumes: two streams that agree
on every index the run draws produce identical meal plans and final
counters.  The source itself, however, draws from the ambient global
`Math.random` and offers no seed or RNG parameter — see the
counterexample theorem for what "running it twice" then means. -/
theorem mealPlan_deterministic_on_stream (useCase : String) (allergies : List String)
    (symptoms : String) (σ1 σ2 : Nat → Nat) (k : Nat)
    (h : ∀ i, k ≤ i →
      i < (generateRAGBasedMealPlan useCase allergies symptoms σ1 k).2 → σ1 i = σ2 i) :
    generateRAGBasedMealPlan useCase allergies symptoms σ1 k =
      generateRAGBasedMealPlan useCase allergies symptoms σ2 k := by
  simp only [generateRAGBasedMealPlan] at h ⊢
  have hg : generateRAGMeals (classifyMealCondition symptoms) σ1 k =
      generateRAGMeals (classifyMealCondition symptoms) σ2 k := by
    apply generateRAGMeals_congrA
    intro i h1 h2
    exact h i h1 (lt_of_lt_of_le h2 (applyRAGAllergyFiltering_mono _ allergies σ1 _))
  rw [← hg]
  apply applyRAGAllergyFiltering_congrA
  intro i h1 h2
  exact h i (le_trans (generateRAGMeals_mono _ σ1 k) h1) h2

set_option maxRecDepth 100000 in
set_option maxHeartbeats 2000000 in
/-- Witness for the amended C6 theorem: the identity stream and the
stream capped at 1000 agree on every index the run consumes, and the two
runs coincide. -/
theorem mealPlan_deterministic_on_stream_witness :
    (∀ i, 0 ≤ i →
      i < (generateRAGBasedMealPlan "Diabetes Management" [] "high blood sugar daily"
            (fun i => i) 0).2 →
      (fun i => i) i = (fun i => if i < 1000 then i else 7) i) ∧
    generateRAGBasedMealPlan "Diabetes Management" [] "high blood sugar daily"
        (fun i => i) 0 =
      generateRAGBasedMealPlan "Diabetes Management" [] "high blood sugar daily"
        (fun i => if i < 1000 then i else 7) 0 := by
  have hcons : (generateRAGBasedMealPlan "Diabetes Management" [] "high blood sugar daily"
      (fun i => i) 0).2 < 1000 := by decide
  have hag : ∀ i, 0 ≤ i →
      i < (generateRAGBasedMealPlan "Diabetes Management" [] "high blood sugar daily"
            (fun i => i) 0).2 →
      (fun i => i) i = (fun i => if i < 1000 then i else 7) i := by
    intro i _ hi
    have : i < 1000 := lt_trans hi hcons
    simp [this]
  exact ⟨hag, mealPlan_deterministic_on_stream "Diabetes Management" []
    "high blood sugar daily" _ _ 0 hag⟩

set_option maxRecDepth 100000 in
set_option maxHeartbeats 2000000 in
/-- C6 counterexample: the source has no seed or RNG parameter — both the
generator and the filter read the ambient global `Math.random`
(route.ts:605, 634) — so running the generator twice with the same
inputs continues the one hidden stream where the first run left it: with
the stream i ↦ i, two back-to-back runs on identical inputs produce
different meal plans.  The randomness source is not injectable/seedable
and two-run determinism fails. -/
theorem mealPlan_two_runs_differ :
    (generateRAGBasedMealPlan "Diabetes Management" [] "high blood sugar daily"
        (fun i => i) 0).1 ≠
      (generateRAGBasedMealPlan "Diabetes Management" [] "high blood sugar daily"
        (fun i => i)
        (generateRAGBasedMealPlan "Diabetes Management" [] "high blood sugar daily"
          (fun i => i) 0).2).1 := by decide

/-! ## The orchestrator claims (C1, C7) -/

/-- C7: for every parsed non-null request body whose `symptoms` field is
missing, not a string, or shorter than 10 characters after trimming, POST
answers 400 with exactly the message
"Please provide detailed symptoms (at least 10 characters)" — and the
answer is the same for every remote behaviour, every exception oracle and
every random stream, so no generation path is entered. -/
theorem short_symptoms_rejected (v : Json) (remote : RemoteOutcome) (lt et : Bool)
    (σ : Nat → Nat) (hv : isNull v = false)
    (h : jsGet v "symptoms" = none ∨
      (∃ w, jsGet v "symptoms" = some w ∧ ∀ s, w ≠ Json.str s) ∨
      ∃ s, jsGet v "symptoms" = some (Json.str s) ∧ (trimStr s).data.length < 10) :
    POST (.ok v) remote lt et σ =
      ⟨400, .errObj "Please provide detailed symptoms (at least 10 characters)"⟩ := by
  have hs : symptomsOk (jsGet v "symptoms") = false := by
    rcases h with h | ⟨w, hw, hns⟩ | ⟨s, hsx, hlen⟩
    · rw [h]; rfl
    · rw [hw]
      rcases w with _ | b | n | s2 | xs | fl
      case str => exact absurd rfl (hns s2)
      all_goals rfl
    · rw [hsx]
      simp only [symptomsOk, Bool.and_eq_false_iff]
      right
      simpa using Nat.not_le.mpr hlen
  simp [POST, hv, hs]

/-- C7 counterexample: the JSON body `null` has no symptoms field, yet
POST answers 200, not 400: the destructuring
`const { symptoms, allergies = [] } = requestData` throws on `null`
before the validation runs, and the outer catch produces the error-tier
envelope with status 200. -/
theorem null_body_not_rejected :
    jsGet Json.null "symptoms" = none ∧
    (POST (.ok Json.null) .unreachable false false (fun _ => 0)).status = 200 ∧
    (POST (.ok Json.null) .unreachable false false (fun _ => 0)).status ≠ 400 := by
  refine ⟨rfl, ?_, ?_⟩ <;> decide

/-- Witness for C7 at the spec's own scenario `symptoms = "ab"`. -/
theorem short_symptoms_rejected_witness :
    isNull (Json.obj [("symptoms", Json.str "ab")]) = false ∧
    (trimStr "ab").data.length < 10 ∧
    POST (.ok (Json.obj [("symptoms", Json.str "ab")])) .unreachable false false
        (fun _ => 0) =
      ⟨400, .errObj "Please provide detailed symptoms (at least 10 characters)"⟩ :=
  ⟨by decide, by decide,
    short_symptoms_rejected _ .unreachable false false (fun _ => 0) (by decide)
      (Or.inr (Or.inr ⟨"ab", rfl, by decide⟩))⟩

/-- The local fallback ladder always answers 200 with an envelope whose
tier records which rung produced it. -/
theorem offlinePath_resolves (s : String) (items : List Json) (lt et : Bool)
    (σ : Nat → Nat) :
    ∃ d, offlinePath s items lt et σ = ⟨200, .envelope d⟩ ∧
      d.backendStatus =
        (if localGenFails lt items = false then "offline"
         else if et = false then "error" else "emergency") := by
  rcases hlt : lt with _ | _
  · rcases hx : asStringList items with _ | l
    · have hlf : localGenFails false items = true := by simp [localGenFails, hx]
      rcases het : et with _ | _
      · exact ⟨{ (generateComprehensiveMockResponse "general health concerns" [] σ 0).1
            with backendStatus := "error" },
          by simp [offlinePath, hx, errorFallback], by simp [hlf]⟩
      · exact ⟨staticDoc, by simp [offlinePath, hx, errorFallback],
          by simp [hlf, staticDoc]⟩
    · have hlf : localGenFails false items = false := by simp [localGenFails, hx]
      exact ⟨(generateComprehensiveMockResponse (trimStr s) l σ 0).1,
        by simp [offlinePath, hx],
        by simp [hlf, generateComprehensiveMockResponse]⟩
  · have hlf : localGenFails true items = true := by simp [localGenFails]
    rcases het : et with _ | _
    · exact ⟨{ (generateComprehensiveMockResponse "general health concerns" [] σ 0).1
          with backendStatus := "error" },
        by simp [offlinePath, errorFallback], by simp [hlf]⟩
    · exact ⟨staticDoc, by simp [offlinePath, errorFallback], by simp [hlf, staticDoc]⟩

/-- Past validation, the orchestrator always answers 200 with an envelope
whose tier is determined by the remote behaviour and the exception
oracles. -/
theorem post_valid_resolves (v : Json) (items : List Json) (remote : RemoteOutcome)
    (lt et : Bool) (σ : Nat → Nat)
    (hnull : isNull v = false) (hsym : symptomsOk (jsGet v "symptoms") = true)
    (hav : allergiesVal v = .arr items) :
    ∃ d, POST (.ok v) remote lt et σ = ⟨200, .envelope d⟩ ∧
      d.backendStatus = tierOf remote (localGenFails lt items) et := by
  rcases remote with _ | r
  · obtain ⟨d, hd, hbs⟩ :=
      offlinePath_resolves (jsonStr ((jsGet v "symptoms").getD .null) "") items lt et σ
    exact ⟨d, by simp [POST, hnull, hsym, hav, hd],
      by simp [tierOf, remoteDelivers, hbs]⟩
  · rcases hok : r.ok with _ | _
    · obtain ⟨d, hd, hbs⟩ :=
        offlinePath_resolves (jsonStr ((jsGet v "symptoms").getD .null) "") items lt et σ
      exact ⟨d, by simp [POST, hnull, hsym, hav, hok, hd],
        by simp [tierOf, remoteDelivers, hok, hbs]⟩
    · rcases hct : includesS r.contentType "application/json" with _ | _
      · obtain ⟨d, hd, hbs⟩ :=
          offlinePath_resolves (jsonStr ((jsGet v "symptoms").getD .null) "") items lt et σ
        exact ⟨d, by simp [POST, hnull, hsym, hav, hok, hct, hd],
          by simp [tierOf, remoteDelivers, hok, hct, hbs]⟩
      · rcases hbody : r.body with e | b
        · obtain ⟨d, hd, hbs⟩ :=
            offlinePath_resolves (jsonStr ((jsGet v "symptoms").getD .null) "") items lt et σ
          exact ⟨d, by simp [POST, hnull, hsym, hav, hok, hct, hbody, hd],
            by simp [tierOf, remoteDelivers, hok, hct, hbody, hbs]⟩
        · rcases hval : truthy b && isObjLike b &&
              truthy ((jsGet b "recommendation").getD .null) with _ | _
          · obtain ⟨d, hd, hbs⟩ :=
              offlinePath_resolves (jsonStr ((jsGet v "symptoms").getD .null) "") items lt et σ
            exact ⟨d, by simp [POST, hnull, hsym, hav, hok, hct, hbody, hval, hd],
              by simp [tierOf, remoteDelivers, hok, hct, hbody, hval, hbs]⟩
          · refine ⟨connectedDoc b, ?_, ?_⟩
            · simp [POST, hnull, hsym, hav, hok, hct, hbody, hval]
            · simp [tierOf, remoteDelivers, hok, hct, hbody, hval, connectedDoc]

/-- A non-array allergies value is rejected with the dedicated 400
message. -/
theorem post_nonarr_allergies (v w : Json) (remote : RemoteOutcome) (lt et : Bool)
    (σ : Nat → Nat) (hn2 : isNull v = false)
    (hs : symptomsOk (jsGet v "symptoms") = true)
    (hva : allergiesVal v = w) (hw : isArr w = false) :
    POST (.ok v) remote lt et σ =
      ⟨400, .errObj "Allergies must be provided as an array"⟩ := by
  rcases w with _ | b | n | s2 | xs | fl
  · simp [POST, hn2, hs, hva]
  · simp [POST, hn2, hs, hva]
  · simp [POST, hn2, hs, hva]
  · simp [POST, hn2, hs, hva]
  · simp [isArr] at hw
  · simp [POST, hn2, hs, hva]

/-- C1: (i) every request that passes input validation gets a 200
response carrying an envelope document whose tier tag follows the
fallback ladder — `connected` when the remote delivers a valid JSON body,
`offline` when the remote times out / errors / returns non-2xx,
non-JSON, unparsable JSON or a body without a truthy recommendation
field and the local generation succeeds, `error` when the local
generation throws (the emergency regeneration runs with fixed generic
symptoms and no allergies), and `emergency` when even that throws;
(ii) any non-200 response of the handler is a 400 with an `{error}`
object, which only input validation produces. -/
theorem orchestrator_never_fails :
    (∀ (v : Json) (items : List Json) (remote : RemoteOutcome) (lt et : Bool)
        (σ : Nat → Nat),
      validRequest (.ok v) = true → allergiesVal v = .arr items →
      ∃ d, POST (.ok v) remote lt et σ = ⟨200, .envelope d⟩ ∧
        d.backendStatus = tierOf remote (localGenFails lt items) et) ∧
    (∀ (parse : Except Unit Json) (remote : RemoteOutcome) (lt et : Bool)
        (σ : Nat → Nat),
      (POST parse remote lt et σ).status ≠ 200 →
      (POST parse remote lt et σ).status = 400 ∧
      ∃ msg, (POST parse remote lt et σ).body = .errObj msg) := by
  constructor
  · rintro v items remote lt et σ hv hav
    have hvb : (!isNull v && symptomsOk (jsGet v "symptoms") &&
        isArr (allergiesVal v)) = true := hv
    simp only [Bool.and_eq_true, Bool.not_eq_true'] at hvb
    exact post_valid_resolves v items remote lt et σ hvb.1.1 hvb.1.2 hav
  · rintro parse remote lt et σ hne
    rcases parse with e | v
    · exact ⟨rfl, _, rfl⟩
    · by_cases hn : isNull v = true
      · exfalso
        apply hne
        rcases het : et with _ | _ <;> simp [POST, hn, errorFallback]
      · have hn2 : isNull v = false := by simpa using hn
        by_cases hs : symptomsOk (jsGet v "symptoms") = true
        · rcases hva : allergiesVal v with _ | b2 | n2 | s2 | items | fl
          · rw [post_nonarr_allergies v _ remote lt et σ hn2 hs hva rfl]
            exact ⟨rfl, _, rfl⟩
          · rw [post_nonarr_allergies v _ remote lt et σ hn2 hs hva rfl]
            exact ⟨rfl, _, rfl⟩
          · rw [post_nonarr_allergies v _ remote lt et σ hn2 hs hva rfl]
            exact ⟨rfl, _, rfl⟩
          · rw [post_nonarr_allergies v _ remote lt et σ hn2 hs hva rfl]
            exact ⟨rfl, _, rfl⟩
          · exfalso
            apply hne
            obtain ⟨d, hd, -⟩ := post_valid_resolves v items remote lt et σ hn2 hs hva
            rw [hd]
          · rw [post_nonarr_allergies v _ remote lt et σ hn2 hs hva rfl]
            exact ⟨rfl, _, rfl⟩
        · have hs2 : symptomsOk (jsGet v "symptoms") = false := by simpa using hs
          have heq : POST (.ok v) remote lt et σ =
              ⟨400, .errObj "Please provide detailed symptoms (at least 10 characters)"⟩ := by
            simp [POST, hn2, hs2]
          rw [heq]
          exact ⟨rfl, _, rfl⟩

/-- Witness for C1 at a concrete valid request with an unreachable
backend. -/
theorem orchestrator_never_fails_witness :
    validRequest (.ok (Json.obj [("symptoms", Json.str "persistent headaches daily")]))
      = true ∧
    ∃ d, POST (.ok (Json.obj [("symptoms", Json.str "persistent headaches daily")]))
        .unreachable false false (fun _ => 0) = ⟨200, .envelope d⟩ ∧
      d.backendStatus = tierOf .unreachable (localGenFails false []) false :=
  ⟨by decide,
    orchestrator_never_fails.1
      (Json.obj [("symptoms", Json.str "persistent headaches daily")]) []
      .unreachable false false (fun _ => 0) (by decide) rfl⟩

/-- Witness for C9 at a symptom text containing no database keyword. -/
theorem general_condition_witness :
    (∀ pr ∈ medicalMealKeywords, ∀ kw ∈ pr.2,
      includesS (lowerStr "zzzz qqqq vvvv") kw = false) ∧
    (classifyMealCondition "zzzz qqqq vvvv" = "general" ∧
     mealTemplatesTable.lookup "general" = none ∧
     chooseTemplates (classifyMealCondition "zzzz qqqq vvvv") = diabetesTemplates ∧
     ∀ σ k, generateRAGMeals (classifyMealCondition "zzzz qqqq vvvv") σ k =
       planThread (fillTemplate σ) diabetesTemplates k) :=
  ⟨by decide, general_condition_uses_diabetes_templates "zzzz qqqq vvvv" (by decide)⟩

end Koly
